import Mathlib

/-!
# Verification development for `deploy.go`

A shallow embedding of the deployment trigger (`executeDeployment`, `deploy`,
`main`) together with the properties of its lookup, of the remote execution
step and of the process exit behaviour.

Go strings are embedded as Lean `String`s, a Go `(string, error)` result as an
output string with an optional error, and the outside world (the ssh library,
the file system, the JSON decoder) as explicit parameters.  Every effect on the
outside world is recorded, in program order, in a trace.
-/

namespace Deploy

/-! ## Data model (`deploy.go`, lines 16-34) -/

/-- One deployment target of a server. -/
structure ServerEnvironment where
  Name : String
  Server : String
  User : String
  Pass : String
  Dir : String
  Command : String
  deriving DecidableEq

/-- A named server with its environments, in file order. -/
structure ServerConfig where
  Name : String
  Environments : List ServerEnvironment
  deriving DecidableEq

/-- The root of the configuration. -/
structure ServerList where
  Servers : List ServerConfig
  deriving DecidableEq

/-! ## Go values used by the program -/

/-- A Go `error` value: either one built by `errors.New`, or one produced by a
library outside this program (ssh, os), known by its message. -/
inductive GoError where
  | errorString (s : String)
  | library (msg : String)
  deriving DecidableEq

/-- The method `Error()` of a Go error. -/
def GoError.Error : GoError → String
  | .errorString s => s
  | .library msg => msg

/-- The function `errors.New`. -/
def errorsNew (text : String) : GoError := .errorString text

/-- The formatting loop of `fmt.Sprintf`, restricted to what this program uses:
the verb `%s` with string operands (an `error` operand is passed as its
`Error()` text).  A `%s` without operand prints Go's missing-operand marker and
a trailing `%` the no-verb marker.  Other verbs do not occur in the program and
are not interpreted: their two characters are copied. -/
def sprintfAux : List Char → List String → List Char
  | [], _ => []
  | c :: rest, args =>
    if c = '%' then
      match rest, args with
      | d :: rest2, a :: args2 =>
        if d = 's' then a.data ++ sprintfAux rest2 args2
        else c :: d :: sprintfAux rest2 args
      | d :: rest2, [] =>
        if d = 's' then "%!s(MISSING)".data ++ sprintfAux rest2 []
        else c :: d :: sprintfAux rest2 []
      | [], _ => "%!(NOVERB)".data
    else c :: sprintfAux rest args

/-- The function `fmt.Sprintf` on string operands. -/
def Sprintf (format : String) (args : List String) : String :=
  String.mk (sprintfAux format.data args)

/-! ## The ssh transport and the effect trace -/

/-- The struct `ssh.ClientConfig` as the program fills it: a user and one
password authentication method. -/
structure ClientConfig where
  User : String
  Password : String
  deriving DecidableEq

/-- A client connection handle returned by `ssh.Dial`. -/
structure Client where
  id : Nat
  deriving DecidableEq

/-- A session handle returned by `client.NewSession`. -/
structure Session where
  id : Nat
  deriving DecidableEq

/-- What the remote command did during one `session.Run`: the bytes it wrote to
standard output and to standard error, and the error `Run` reports (`none` for
exit status zero). -/
structure RemoteRun where
  stdout : String
  stderr : String
  err : Option GoError
  deriving DecidableEq

/-- The behaviour of the remote side, seen through the ssh library. -/
structure Transport where
  dial : String → String → ClientConfig → Except GoError Client
  newSession : Client → Except GoError Session
  run : Session → String → RemoteRun

/-- An effect on the outside world. -/
inductive Effect where
  | dial (network addr : String) (config : ClientConfig)
  | newSession (c : Client)
  | run (s : Session) (cmd : String)
  | sessionClose (s : Session)
  | clientClose (c : Client)
  | readFile (path : String)
  deriving DecidableEq

/-- Is the effect a dial. -/
def Effect.isDial : Effect → Bool
  | .dial _ _ _ => true
  | _ => false

/-- Is the effect a session-open. -/
def Effect.isNewSession : Effect → Bool
  | .newSession _ => true
  | _ => false

/-- Is the effect a command run. -/
def Effect.isRun : Effect → Bool
  | .run _ _ => true
  | _ => false

/-- Is the effect a session close. -/
def Effect.isSessionClose : Effect → Bool
  | .sessionClose _ => true
  | _ => false

/-- Is the effect a close of the client connection. -/
def Effect.isClientClose : Effect → Bool
  | .clientClose _ => true
  | _ => false

/-- Is the effect a cleanup of any kind. -/
def Effect.isCleanup (e : Effect) : Bool :=
  e.isSessionClose || e.isClientClose

/-- The result of a Go function returning `(string, error)`, with the effects
it performed. -/
structure Outcome where
  trace : List Effect
  output : String
  err : Option GoError
  deriving DecidableEq

/-- The method `session.Run` with the session's writers: the remote standard
output is appended to the buffer behind `Stdout` when one is attached, the
remote standard error to the one behind `Stderr`; an unattached stream is
discarded.  Returns the two buffers and the error of the run. -/
def sessionRun (T : Transport) (s : Session) (stdoutBuf stderrBuf : Option String)
    (cmd : String) : Option String × Option String × Option GoError :=
  let r := T.run s cmd
  (stdoutBuf.map (fun b => b ++ r.stdout), stderrBuf.map (fun b => b ++ r.stderr), r.err)

/-- The command line built at line 59. -/
def remoteCommand (env : ServerEnvironment) : String :=
  Sprintf "cd %s && %s" [env.Dir, env.Command]

/-- The function `executeDeployment` (lines 37-65).  The deferred
`session.Close()` is registered once the session is open and runs when the
function returns, after the run step. -/
def executeDeployment (T : Transport) (env : ServerEnvironment) : Outcome :=
  let clientConfig : ClientConfig := { User := env.User, Password := env.Pass }
  let t1 := [Effect.dial "tcp" env.Server clientConfig]
  match T.dial "tcp" env.Server clientConfig with
  | .error err => { trace := t1, output := "", err := some err }
  | .ok client =>
    let t2 := t1 ++ [Effect.newSession client]
    match T.newSession client with
    | .error err => { trace := t2, output := "", err := some err }
    | .ok session =>
      let deferred := [Effect.sessionClose session]
      let b : String := ""
      let cmd := remoteCommand env
      let t3 := t2 ++ [Effect.run session cmd]
      match sessionRun T session (some b) none cmd with
      | (_, _, some err) => { trace := t3 ++ deferred, output := "", err := some err }
      | (b2, _, none) => { trace := t3 ++ deferred, output := b2.getD "", err := none }

/-- The inner loop of `deploy` (lines 72-77): `some r` when the loop returned
`r` from the function, `none` when it ran to its end. -/
def deployEnvs (T : Transport) (environment : String) :
    List ServerEnvironment → Option Outcome
  | [] => none
  | e :: rest =>
    if e.Name = environment then some (executeDeployment T e)
    else deployEnvs T environment rest

/-- The outer loop of `deploy` (lines 70-79). -/
def deployServers (T : Transport) (serverName environment : String) :
    List ServerConfig → Option Outcome
  | [] => none
  | s :: rest =>
    if s.Name = serverName then
      match deployEnvs T environment s.Environments with
      | some r => some r
      | none => deployServers T serverName environment rest
    else deployServers T serverName environment rest

/-- The error built at line 81. -/
def notFoundError (serverName environment : String) : GoError :=
  errorsNew (Sprintf "No such server or environment found (%s, %s)" [serverName, environment])

/-- The function `deploy` (lines 69-82). -/
def deploy (T : Transport) (serverList : ServerList) (serverName environment : String) :
    Outcome :=
  match deployServers T serverName environment serverList.Servers with
  | some r => r
  | none => { trace := [], output := "", err := some (notFoundError serverName environment) }

/-! ## The process (`main`, lines 101-144) -/

/-- Everything `main` reads from outside, the command line apart: the result
of `executingDir`, the function `filepath.Join`, the file system, what
`json.Unmarshal` leaves in the zero `ServerList` (its error is dropped at line
132), and the transport. -/
structure World where
  executingDir : String × Option GoError
  filepathJoin : String → String → String
  readFile : String → Except GoError String
  unmarshal : String → ServerList
  transport : Transport

/-- What a run of the process leaves behind: the strings written to standard
output, one per print call, the effects, and the exit code. -/
structure Process where
  stdout : List String
  trace : List Effect
  exit : Nat
  deriving DecidableEq

/-- The function `fmt.Println` on one string. -/
def Println (s : String) : String := s ++ "\n"

/-- The values of the two string flags declared at lines 105-106. -/
structure FlagValues where
  server : String
  env : String
  deriving DecidableEq

/-- The flags declared on the command-line flag set. -/
inductive FlagName where
  | server
  | env
  deriving DecidableEq

/-- How `flag.Parse` ends: inside the flag package with `os.Exit(code)` (the
flag set has the default `ExitOnError` handling), or by returning with the
values of the two flags. -/
inductive ParseResult where
  | exited (code : Nat)
  | parsed (serverName envName : String)
  deriving DecidableEq

/-- The shape of one command-line argument in `parseOne` of the flag package. -/
inductive FlagArg where
  | notFlag
  | terminator
  | badSyntax
  | named (name : List Char) (value : Option (List Char))
  deriving DecidableEq

/-- The scan of `parseOne` for the first `=` behind the first character of the
name: the name part and, when there is an `=`, the value behind it. -/
def splitAtEquals : List Char → List Char × Option (List Char)
  | [] => ([], none)
  | c :: rest =>
    if c = '=' then ([], some rest)
    else ((c :: (splitAtEquals rest).1), (splitAtEquals rest).2)

/-- The head of `parseOne`: an argument shorter than two characters or not
starting with `-` is no flag, `--` ends the flags, one or two minus signs are
dropped, and a name that is empty or starts with `-` or `=` is bad syntax. -/
def classifyArg (s : String) : FlagArg :=
  match s.data with
  | a :: b :: more =>
    if a ≠ '-' then .notFlag
    else if b = '-' ∧ more = [] then .terminator
    else
      match (if b = '-' then more else b :: more) with
      | [] => .badSyntax
      | n0 :: ntail =>
        if n0 = '-' ∨ n0 = '=' then .badSyntax
        else .named (n0 :: (splitAtEquals ntail).1) (splitAtEquals ntail).2
  | _ => .notFlag

/-- The lookup of a name among the declared flags. -/
def lookupFlag (name : List Char) : Option FlagName :=
  if name = "server".data then some .server
  else if name = "env".data then some .env
  else none

/-- The method `Set` of a string flag. -/
def FlagValues.set (fl : FlagValues) (f : FlagName) (value : String) : FlagValues :=
  match f with
  | .server => { fl with server := value }
  | .env => { fl with env := value }

/-- The loop of `flag.Parse` over `parseOne`.  An undeclared name ends the
process: with status 0 when it is `help` or `h`, with status 2 otherwise.  A
declared flag without `=value` takes the next argument as its value and ends
the process with status 2 when there is none.  The messages the flag package
writes go to standard error and are not part of the result. -/
def flagParseLoop (fl : FlagValues) : List String → ParseResult
  | [] => .parsed fl.server fl.env
  | s :: rest =>
    match classifyArg s with
    | .notFlag => .parsed fl.server fl.env
    | .terminator => .parsed fl.server fl.env
    | .badSyntax => .exited 2
    | .named name value =>
      match lookupFlag name with
      | none => if name = "help".data ∨ name = "h".data then .exited 0 else .exited 2
      | some f =>
        match value with
        | some v => flagParseLoop (fl.set f (String.mk v)) rest
        | none =>
          match rest with
          | [] => .exited 2
          | v :: rest2 => flagParseLoop (fl.set f v) rest2

/-- The call `flag.Parse()` of line 107 on the arguments behind the program
name, both flags starting at their default `""`. -/
def flagParse (args : List String) : ParseResult :=
  flagParseLoop { server := "", env := "" } args

/-- The path of the configuration file (lines 116-122): `servers.json` next to
the executable, or in the current directory when `executingDir` failed. -/
def configFile (W : World) : String :=
  match W.executingDir with
  | (_, some _) => "servers.json"
  | (dir, none) => W.filepathJoin dir "servers.json"

/-- The function `main` (lines 101-144), from the command-line arguments
behind the program name and the world. -/
def main (args : List String) (W : World) : Process :=
  let o1 := [Println "Deploy v0.0.1"]
  match flagParse args with
  | .exited code => { stdout := o1, trace := [], exit := code }
  | .parsed serverName envName =>
    if serverName = "" ∨ envName = "" then
      { stdout := o1 ++ [Println "Usage: deploy --server=serverName --env=envName",
                         Println "Example: deploy --server=testserver --env=prod"],
        trace := [], exit := 1 }
    else
      let configFile := configFile W
      match W.readFile configFile with
      | .error err =>
        { stdout := o1 ++ [Sprintf "Could not open servers.json: %s (tried with path %s)\n"
                             [err.Error, configFile]],
          trace := [Effect.readFile configFile], exit := 1 }
      | .ok file =>
        let serverList := W.unmarshal file
        let o2 := o1 ++ [Sprintf "Initiating deployment of %s:%s\n" [serverName, envName]]
        let r := deploy W.transport serverList serverName envName
        match r.err with
        | some err =>
          { stdout := o2 ++ [Sprintf "Error while deploying: %s\n" [err.Error]],
            trace := Effect.readFile configFile :: r.trace, exit := 1 }
        | none =>
          { stdout := o2 ++ [Println "Deployment succeeded!",
                             Sprintf "Output:\n%s\n" [r.output]],
            trace := Effect.readFile configFile :: r.trace, exit := 0 }

/-! ## Vocabulary of the statements and concrete configurations -/

/-- A server holds no environment of the wanted pair of names. -/
def noMatch (sn en : String) (s : ServerConfig) : Prop :=
  s.Name = sn → ∀ e ∈ s.Environments, e.Name ≠ en

/-- The outcome of the not-found path of `deploy`: no effect, empty output, the
error of line 81. -/
def notFoundOutcome (sn en : String) : Outcome :=
  { trace := [], output := "",
    err := some (GoError.errorString
      ("No such server or environment found (" ++ sn ++ ", " ++ en ++ ")")) }

/-- The environment `prod` of the example configuration. -/
def prodEnv : ServerEnvironment :=
  { Name := "prod", Server := "example.com:22", User := "deployer", Pass := "",
    Dir := "/srv/app", Command := "./restart.sh" }

/-- The example configuration: one server `testserver` with one environment. -/
def testList : ServerList :=
  { Servers := [{ Name := "testserver", Environments := [prodEnv] }] }

/-- A configuration with two servers of one name, the first without
environments. -/
def shadowedList : ServerList :=
  { Servers := [{ Name := "testserver", Environments := [] },
                { Name := "testserver", Environments := [prodEnv] }] }

/-- The environment `prod` of another host. -/
def prodEnvB : ServerEnvironment :=
  { prodEnv with Server := "b.example.com:22", User := "release" }

/-- An environment `stage`. -/
def stageEnv : ServerEnvironment :=
  { prodEnv with Name := "stage", Server := "stage.example.com:22" }

/-- A configuration with a server of another name, then three servers named
`testserver`: the first holds `stage` only, the second holds `prod` twice
behind `stage`, the third holds `prod` of the other host. -/
def stagedList : ServerList :=
  { Servers := [{ Name := "db", Environments := [prodEnvB] },
                { Name := "testserver", Environments := [stageEnv] },
                { Name := "testserver", Environments := [stageEnv, prodEnv, prodEnvB] },
                { Name := "testserver", Environments := [prodEnvB] }] }

/-- A remote side on which every step succeeds and the command writes one
line. -/
def okTransport : Transport :=
  { dial := fun _ _ _ => .ok { id := 1 },
    newSession := fun _ => .ok { id := 7 },
    run := fun _ _ => { stdout := "restarted\n", stderr := "", err := none } }

/-- An environment running `echo hello` in `/tmp`. -/
def echoEnv : ServerEnvironment :=
  { Name := "test", Server := "localhost:22", User := "tester", Pass := "secret",
    Dir := "/tmp", Command := "echo hello" }

/-- A remote shell for `echoEnv`: the command line `cd /tmp && echo hello`
writes `hello` to standard output and a notice to standard error; any other
command line is not found. -/
def echoTransport : Transport :=
  { dial := fun _ _ _ => .ok { id := 1 },
    newSession := fun _ => .ok { id := 7 },
    run := fun _ cmd =>
      if cmd = "cd /tmp && echo hello" then
        { stdout := "hello\n", stderr := "motd: welcome\n", err := none }
      else
        { stdout := "", stderr := "not found\n",
          err := some (.library "Process exited with: 127. Reason was:  ()") } }

/-- A remote side that rejects the password; a session or a run on it would
fail with errors of their own. -/
def badPasswordTransport : Transport :=
  { dial := fun _ _ _ => .error (.library "ssh: handshake failed: ssh: unable to authenticate"),
    newSession := fun _ => .error (.library "ssh: rejected: administratively prohibited"),
    run := fun _ _ => { stdout := "", stderr := "", err := some (.library "unreachable") } }

/-- A remote side that accepts the connection and refuses the session. -/
def noSessionTransport : Transport :=
  { dial := fun _ _ _ => .ok { id := 1 },
    newSession := fun _ => .error (.library "ssh: rejected: administratively prohibited"),
    run := fun _ _ => { stdout := "", stderr := "", err := some (.library "unreachable") } }

/-- A remote side on which the command writes to standard output and then
exits with status 1. -/
def failingRunTransport : Transport :=
  { dial := fun _ _ _ => .ok { id := 1 },
    newSession := fun _ => .ok { id := 7 },
    run := fun _ _ =>
      { stdout := "stopping app\n", stderr := "restart failed\n",
        err := some (.library "Process exited with: 1. Reason was:  ()") } }

/-- A world in which the configuration file is read and decodes to
`testList`. -/
def testWorld (T : Transport) : World :=
  { executingDir := ("/opt/deploy", none),
    filepathJoin := fun d f => d ++ "/" ++ f,
    readFile := fun p =>
      if p = "/opt/deploy/servers.json" then .ok "config" else .error (.library "no such file"),
    unmarshal := fun _ => testList,
    transport := T }

/-- A world whose configuration holds one server and one environment, both
with the empty name. -/
def emptyNamesWorld : World :=
  { testWorld okTransport with
    unmarshal := fun _ =>
      { Servers := [{ Name := "", Environments := [{ prodEnv with Name := "" }] }] } }

theorem sprintf_remote (d c : String) :
    Sprintf "cd %s && %s" [d, c] = "cd " ++ d ++ " && " ++ c := by
  apply String.ext
  simp [Sprintf, sprintfAux]

theorem sprintf_notFound (a b : String) :
    Sprintf "No such server or environment found (%s, %s)" [a, b]
      = "No such server or environment found (" ++ a ++ ", " ++ b ++ ")" := by
  apply String.ext
  simp [Sprintf, sprintfAux]

theorem sprintf_initiating (a b : String) :
    Sprintf "Initiating deployment of %s:%s\n" [a, b]
      = "Initiating deployment of " ++ a ++ ":" ++ b ++ "\n" := by
  apply String.ext
  simp [Sprintf, sprintfAux]

theorem sprintf_errorLine (m : String) :
    Sprintf "Error while deploying: %s\n" [m] = "Error while deploying: " ++ m ++ "\n" := by
  apply String.ext
  simp [Sprintf, sprintfAux]

theorem sprintf_output (o : String) :
    Sprintf "Output:\n%s\n" [o] = "Output:\n" ++ o ++ "\n" := by
  apply String.ext
  simp [Sprintf, sprintfAux]

theorem sprintf_couldNotOpen (m p : String) :
    Sprintf "Could not open servers.json: %s (tried with path %s)\n" [m, p]
      = "Could not open servers.json: " ++ m ++ " (tried with path " ++ p ++ ")\n" := by
  apply String.ext
  simp [Sprintf, sprintfAux]

/-! ## Lemmas on `executeDeployment` -/

theorem remoteCommand_eq (env : ServerEnvironment) :
    remoteCommand env = "cd " ++ env.Dir ++ " && " ++ env.Command := by
  simp [remoteCommand, sprintf_remote]

theorem exec_dial_error (T : Transport) (env : ServerEnvironment) (d : GoError)
    (hd : T.dial "tcp" env.Server { User := env.User, Password := env.Pass } = .error d) :
    executeDeployment T env =
      { trace := [Effect.dial "tcp" env.Server { User := env.User, Password := env.Pass }],
        output := "", err := some d } := by
  simp [executeDeployment, hd]

theorem exec_session_error (T : Transport) (env : ServerEnvironment) (c : Client) (e : GoError)
    (hd : T.dial "tcp" env.Server { User := env.User, Password := env.Pass } = .ok c)
    (hs : T.newSession c = .error e) :
    executeDeployment T env =
      { trace := [Effect.dial "tcp" env.Server { User := env.User, Password := env.Pass },
                  Effect.newSession c],
        output := "", err := some e } := by
  simp [executeDeployment, hd, hs]

theorem exec_run_error (T : Transport) (env : ServerEnvironment) (c : Client) (s : Session)
    (r : GoError)
    (hd : T.dial "tcp" env.Server { User := env.User, Password := env.Pass } = .ok c)
    (hs : T.newSession c = .ok s)
    (hr : (T.run s ("cd " ++ env.Dir ++ " && " ++ env.Command)).err = some r) :
    executeDeployment T env =
      { trace := [Effect.dial "tcp" env.Server { User := env.User, Password := env.Pass },
                  Effect.newSession c,
                  Effect.run s ("cd " ++ env.Dir ++ " && " ++ env.Command),
                  Effect.sessionClose s],
        output := "", err := some r } := by
  simp [executeDeployment, hd, hs, sessionRun, remoteCommand_eq, hr]

theorem exec_run_ok (T : Transport) (env : ServerEnvironment) (c : Client) (s : Session)
    (hd : T.dial "tcp" env.Server { User := env.User, Password := env.Pass } = .ok c)
    (hs : T.newSession c = .ok s)
    (hr : (T.run s ("cd " ++ env.Dir ++ " && " ++ env.Command)).err = none) :
    executeDeployment T env =
      { trace := [Effect.dial "tcp" env.Server { User := env.User, Password := env.Pass },
                  Effect.newSession c,
                  Effect.run s ("cd " ++ env.Dir ++ " && " ++ env.Command),
                  Effect.sessionClose s],
        output := (T.run s ("cd " ++ env.Dir ++ " && " ++ env.Command)).stdout,
        err := none } := by
  simp [executeDeployment, hd, hs, sessionRun, remoteCommand_eq, hr]

/-! ## Lemmas on the lookup loops -/

theorem deployEnvs_none (T : Transport) (en : String) (envs : List ServerEnvironment)
    (h : ∀ e ∈ envs, e.Name ≠ en) : deployEnvs T en envs = none := by
  induction envs with
  | nil => rfl
  | cons e rest ih =>
    have h1 : e.Name ≠ en := h e (List.mem_cons_self _ _)
    have h2 : ∀ x ∈ rest, x.Name ≠ en := fun x hx => h x (List.mem_cons_of_mem _ hx)
    simp [deployEnvs, h1, ih h2]

theorem deployEnvs_first (T : Transport) (en : String)
    (epre : List ServerEnvironment) (e : ServerEnvironment) (epost : List ServerEnvironment)
    (hpre : ∀ x ∈ epre, x.Name ≠ en) (he : e.Name = en) :
    deployEnvs T en (epre ++ e :: epost) = some (executeDeployment T e) := by
  induction epre with
  | nil => simp [deployEnvs, he]
  | cons x rest ih =>
    have h1 : x.Name ≠ en := hpre x (List.mem_cons_self _ _)
    have h2 : ∀ y ∈ rest, y.Name ≠ en := fun y hy => hpre y (List.mem_cons_of_mem _ hy)
    simp [deployEnvs, h1, ih h2]

theorem envs_split_first (en : String) (envs : List ServerEnvironment)
    (h : ∃ e ∈ envs, e.Name = en) :
    ∃ epre e epost, envs = epre ++ e :: epost ∧ (∀ x ∈ epre, x.Name ≠ en) ∧ e.Name = en := by
  induction envs with
  | nil => simp at h
  | cons x rest ih =>
    by_cases hx : x.Name = en
    · exact ⟨[], x, rest, rfl, by simp, hx⟩
    · have h2 : ∃ e ∈ rest, e.Name = en := by
        obtain ⟨e, hmem, hn⟩ := h
        rcases List.mem_cons.mp hmem with heq | hr
        · exact absurd (heq ▸ hn) hx
        · exact ⟨e, hr, hn⟩
      obtain ⟨epre, e, epost, hsplit, hpre, he⟩ := ih h2
      refine ⟨x :: epre, e, epost, by simp [hsplit], ?_, he⟩
      intro y hy
      rcases List.mem_cons.mp hy with heq | hr
      · exact heq ▸ hx
      · exact hpre y hr

theorem deployServers_skip (T : Transport) (sn en : String) (pre rest : List ServerConfig)
    (hpre : ∀ s ∈ pre, noMatch sn en s) :
    deployServers T sn en (pre ++ rest) = deployServers T sn en rest := by
  induction pre with
  | nil => rfl
  | cons s tl ih =>
    have h2 : ∀ x ∈ tl, noMatch sn en x := fun x hx => hpre x (List.mem_cons_of_mem _ hx)
    have h1 : noMatch sn en s := hpre s (List.mem_cons_self _ _)
    by_cases hn : s.Name = sn
    · simp [deployServers, hn, deployEnvs_none T en s.Environments (h1 hn), ih h2]
    · simp [deployServers, hn, ih h2]

theorem deployServers_none (T : Transport) (sn en : String) (l : List ServerConfig)
    (h : ∀ s ∈ l, noMatch sn en s) : deployServers T sn en l = none := by
  have := deployServers_skip T sn en l [] h
  simpa [deployServers] using this

theorem deployServers_first (T : Transport) (sn en : String)
    (pre : List ServerConfig) (s : ServerConfig) (post : List ServerConfig)
    (epre : List ServerEnvironment) (e : ServerEnvironment) (epost : List ServerEnvironment)
    (hpre : ∀ x ∈ pre, noMatch sn en x) (hs : s.Name = sn)
    (hsplit : s.Environments = epre ++ e :: epost)
    (hepre : ∀ x ∈ epre, x.Name ≠ en) (he : e.Name = en) :
    deployServers T sn en (pre ++ s :: post) = some (executeDeployment T e) := by
  rw [deployServers_skip T sn en pre (s :: post) hpre]
  simp [deployServers, hs, hsplit, deployEnvs_first T en epre e epost hepre he]

theorem servers_split_first (sn en : String) (l : List ServerConfig)
    (h : ∃ s ∈ l, s.Name = sn ∧ ∃ e ∈ s.Environments, e.Name = en) :
    ∃ pre s post, l = pre ++ s :: post ∧ (∀ x ∈ pre, noMatch sn en x) ∧ s.Name = sn ∧
      ∃ e ∈ s.Environments, e.Name = en := by
  induction l with
  | nil => simp at h
  | cons x rest ih =>
    by_cases hx : x.Name = sn ∧ ∃ e ∈ x.Environments, e.Name = en
    · exact ⟨[], x, rest, rfl, by simp, hx.1, hx.2⟩
    · have h2 : ∃ s ∈ rest, s.Name = sn ∧ ∃ e ∈ s.Environments, e.Name = en := by
        obtain ⟨s, hmem, hn⟩ := h
        rcases List.mem_cons.mp hmem with heq | hr
        · exact absurd (heq ▸ hn) hx
        · exact ⟨s, hr, hn⟩
      obtain ⟨pre, s, post, hsplit, hpre, hs⟩ := ih h2
      refine ⟨x :: pre, s, post, by simp [hsplit], ?_, hs⟩
      intro y hy
      rcases List.mem_cons.mp hy with heq | hr
      · subst heq
        intro hname e hmem hen
        exact hx ⟨hname, e, hmem, hen⟩
      · exact hpre y hr

theorem exec_dials (T : Transport) (e : ServerEnvironment) :
    (executeDeployment T e).trace.filter Effect.isDial
      = [Effect.dial "tcp" e.Server { User := e.User, Password := e.Pass }] := by
  cases hd : T.dial "tcp" e.Server { User := e.User, Password := e.Pass } with
  | error d => rw [exec_dial_error T e d hd]; rfl
  | ok c =>
    cases hs : T.newSession c with
    | error x => rw [exec_session_error T e c x hd hs]; rfl
    | ok s =>
      cases hr : (T.run s ("cd " ++ e.Dir ++ " && " ++ e.Command)).err with
      | some r => rw [exec_run_error T e c s r hd hs hr]; rfl
      | none => rw [exec_run_ok T e c s hd hs hr]; rfl

theorem deploy_first (T : Transport) (sn en : String)
    (pre : List ServerConfig) (s : ServerConfig) (post : List ServerConfig)
    (epre : List ServerEnvironment) (e : ServerEnvironment) (epost : List ServerEnvironment)
    (hpre : ∀ x ∈ pre, noMatch sn en x) (hs : s.Name = sn)
    (hsplit : s.Environments = epre ++ e :: epost)
    (hepre : ∀ x ∈ epre, x.Name ≠ en) (he : e.Name = en) :
    deploy T { Servers := pre ++ s :: post } sn en = executeDeployment T e := by
  simp [deploy, deployServers_first T sn en pre s post epre e epost hpre hs hsplit hepre he]

theorem deploy_none (T : Transport) (L : ServerList) (sn en : String)
    (h : ∀ s ∈ L.Servers, noMatch sn en s) :
    deploy T L sn en = notFoundOutcome sn en := by
  simp [deploy, deployServers_none T sn en L.Servers h, notFoundOutcome, notFoundError,
    errorsNew, sprintf_notFound]

theorem deploy_cases (T : Transport) (L : ServerList) (sn en : String) :
    deploy T L sn en = notFoundOutcome sn en ∨
    ∃ s ∈ L.Servers, ∃ e ∈ s.Environments, s.Name = sn ∧ e.Name = en ∧
      deploy T L sn en = executeDeployment T e := by
  by_cases h : ∃ s ∈ L.Servers, s.Name = sn ∧ ∃ e ∈ s.Environments, e.Name = en
  · right
    obtain ⟨pre, s, post, hsplit, hpre, hs, hex⟩ := servers_split_first sn en L.Servers h
    obtain ⟨epre, e, epost, hesplit, hepre, he⟩ := envs_split_first en s.Environments hex
    refine ⟨s, by simp [hsplit], e, by simp [hesplit], hs, he, ?_⟩
    have := deploy_first T sn en pre s post epre e epost hpre hs hesplit hepre he
    rw [← hsplit] at this
    exact this
  · left
    apply deploy_none
    intro s hmem hname e hemem hen
    exact h ⟨s, hmem, hname, e, hemem, hen⟩

/-! ## The lookup of `deploy` -/

/-- C1: when some server named `sn` holds an environment named `en`, `deploy`
returns unchanged the outcome of one `executeDeployment` call, made on the
first environment named `en` of the first server that is named `sn` and holds
such an environment; the only connection dialled is that environment's. -/
theorem deploy_first_match (T : Transport) (L : ServerList) (sn en : String)
    (h : ∃ s ∈ L.Servers, s.Name = sn ∧ ∃ e ∈ s.Environments, e.Name = en) :
    ∃ pre s post epre e epost,
      L.Servers = pre ++ s :: post ∧
      (∀ x ∈ pre, ¬ (x.Name = sn ∧ ∃ y ∈ x.Environments, y.Name = en)) ∧
      s.Name = sn ∧
      s.Environments = epre ++ e :: epost ∧
      (∀ y ∈ epre, y.Name ≠ en) ∧
      e.Name = en ∧
      deploy T L sn en = executeDeployment T e ∧
      (deploy T L sn en).trace.filter Effect.isDial
        = [Effect.dial "tcp" e.Server { User := e.User, Password := e.Pass }] := by
  obtain ⟨pre, s, post, hsplit, hpre, hs, hex⟩ := servers_split_first sn en L.Servers h
  obtain ⟨epre, e, epost, hesplit, hepre, he⟩ := envs_split_first en s.Environments hex
  have hd := deploy_first T sn en pre s post epre e epost hpre hs hesplit hepre he
  rw [← hsplit] at hd
  refine ⟨pre, s, post, epre, e, epost, hsplit, ?_, hs, hesplit, hepre, he, hd, ?_⟩
  · rintro x hx ⟨hname, y, hy, hyn⟩
    exact hpre x hx hname y hy hyn
  · rw [hd]
    exact exec_dials T e

/-- C1 at the example configuration: the environment selected for
`("testserver", "prod")` is `prodEnv`, every field unchanged. -/
theorem deploy_first_match_witness :
    (∃ s ∈ testList.Servers, s.Name = "testserver" ∧ ∃ e ∈ s.Environments, e.Name = "prod") ∧
    (∃ pre s post epre e epost,
      testList.Servers = pre ++ s :: post ∧
      (∀ x ∈ pre, ¬ (x.Name = "testserver" ∧ ∃ y ∈ x.Environments, y.Name = "prod")) ∧
      s.Name = "testserver" ∧
      s.Environments = epre ++ e :: epost ∧
      (∀ y ∈ epre, y.Name ≠ "prod") ∧
      e.Name = "prod" ∧
      deploy okTransport testList "testserver" "prod" = executeDeployment okTransport e ∧
      (deploy okTransport testList "testserver" "prod").trace.filter Effect.isDial
        = [Effect.dial "tcp" e.Server { User := e.User, Password := e.Pass }]) ∧
    deploy okTransport testList "testserver" "prod" = executeDeployment okTransport
      { Name := "prod", Server := "example.com:22", User := "deployer", Pass := "",
        Dir := "/srv/app", Command := "./restart.sh" } :=
  have hex : ∃ s ∈ testList.Servers, s.Name = "testserver" ∧
      ∃ e ∈ s.Environments, e.Name = "prod" :=
    ⟨{ Name := "testserver", Environments := [prodEnv] }, by simp [testList], rfl,
      prodEnv, by simp, rfl⟩
  ⟨hex, deploy_first_match okTransport testList "testserver" "prod" hex, by decide⟩

/-- C2: when no server named `sn` holds an environment named `en`, `deploy`
performs no effect at all and returns the empty output with the error whose
message is `No such server or environment found (sn, en)`. -/
theorem deploy_not_found (T : Transport) (L : ServerList) (sn en : String)
    (h : ∀ s ∈ L.Servers, s.Name = sn → ∀ e ∈ s.Environments, e.Name ≠ en) :
    deploy T L sn en =
      { trace := [], output := "",
        err := some (GoError.errorString
          ("No such server or environment found (" ++ sn ++ ", " ++ en ++ ")")) } ∧
    (∃ err, (deploy T L sn en).err = some err ∧
      err.Error = "No such server or environment found (" ++ sn ++ ", " ++ en ++ ")") := by
  have hd := deploy_none T L sn en h
  refine ⟨hd, GoError.errorString
      ("No such server or environment found (" ++ sn ++ ", " ++ en ++ ")"), ?_, rfl⟩
  rw [hd]
  rfl

/-- C2 on the empty list, on a list without a server of that name, and on a
server of that name without that environment. -/
theorem deploy_not_found_witness :
    (deploy okTransport { Servers := [] } "testserver" "prod").err
      = some (GoError.errorString "No such server or environment found (testserver, prod)") ∧
    deploy okTransport testList "web" "prod" =
      { trace := [], output := "",
        err := some (GoError.errorString
          ("No such server or environment found (" ++ "web" ++ ", " ++ "prod" ++ ")")) } ∧
    (deploy okTransport testList "testserver" "qa").trace = [] := by
  refine ⟨?_, ?_, ?_⟩
  · have h := (deploy_not_found okTransport { Servers := [] } "testserver" "prod"
      (by simp)).1
    rw [h]; decide
  · exact (deploy_not_found okTransport testList "web" "prod" (by decide)).1
  · rw [(deploy_not_found okTransport testList "testserver" "qa" (by decide)).1]

/-- C3, refuted as stated: in `shadowedList` the first server named
`testserver` has no environment named `prod`, and `deploy` does not fail with
the not-found error: it goes on to the second server of that name and runs the
deployment of its environment `prod`. -/
theorem deploy_first_server_decides_counterexample :
    shadowedList.Servers.head? = some { Name := "testserver", Environments := [] } ∧
    shadowedList.Servers.find? (fun s => decide (s.Name = "testserver"))
      = some { Name := "testserver", Environments := [] } ∧
    (deploy okTransport shadowedList "testserver" "prod").err = none ∧
    (deploy okTransport shadowedList "testserver" "prod").output = "restarted\n" ∧
    deploy okTransport shadowedList "testserver" "prod" = executeDeployment okTransport prodEnv ∧
    deploy okTransport shadowedList "testserver" "prod" ≠
      { trace := [], output := "",
        err := some (GoError.errorString
          "No such server or environment found (testserver, prod)") } := by
  decide

/-- C3, amended: when the first server named `sn` has no environment named
`en`, the scan goes on behind it: `deploy` on the whole list is `deploy` on the
servers after that one.  It fails with the not-found error, without effect,
when no later server named `sn` holds an environment named `en`; otherwise it
returns the outcome of `executeDeployment` on the first later match: the first
environment named `en` of the first later server that is named `sn` and holds
one, and dials that environment's connection only. -/
theorem deploy_skips_server_without_env (T : Transport) (sn en : String)
    (pre : List ServerConfig) (s : ServerConfig) (post : List ServerConfig)
    (hpre : ∀ x ∈ pre, x.Name ≠ sn) (hs : s.Name = sn)
    (hno : ∀ e ∈ s.Environments, e.Name ≠ en) :
    deploy T { Servers := pre ++ s :: post } sn en = deploy T { Servers := post } sn en ∧
    ((∀ x ∈ post, x.Name = sn → ∀ e ∈ x.Environments, e.Name ≠ en) →
      deploy T { Servers := pre ++ s :: post } sn en =
        { trace := [], output := "",
          err := some (GoError.errorString
            ("No such server or environment found (" ++ sn ++ ", " ++ en ++ ")")) }) ∧
    (∀ pre2 s2 post2 epre e epost,
      post = pre2 ++ s2 :: post2 →
      (∀ x ∈ pre2, ¬ (x.Name = sn ∧ ∃ y ∈ x.Environments, y.Name = en)) →
      s2.Name = sn →
      s2.Environments = epre ++ e :: epost →
      (∀ y ∈ epre, y.Name ≠ en) →
      e.Name = en →
      deploy T { Servers := pre ++ s :: post } sn en = executeDeployment T e ∧
      (deploy T { Servers := pre ++ s :: post } sn en).trace.filter Effect.isDial
        = [Effect.dial "tcp" e.Server { User := e.User, Password := e.Pass }]) ∧
    ((∃ x ∈ post, x.Name = sn ∧ ∃ y ∈ x.Environments, y.Name = en) →
      ∃ pre2 s2 post2 epre e epost,
        post = pre2 ++ s2 :: post2 ∧
        (∀ x ∈ pre2, ¬ (x.Name = sn ∧ ∃ y ∈ x.Environments, y.Name = en)) ∧
        s2.Name = sn ∧
        s2.Environments = epre ++ e :: epost ∧
        (∀ y ∈ epre, y.Name ≠ en) ∧
        e.Name = en ∧
        deploy T { Servers := pre ++ s :: post } sn en = executeDeployment T e) := by
  have hskip : deploy T { Servers := pre ++ s :: post } sn en
      = deploy T { Servers := post } sn en := by
    have h1 : ∀ x ∈ pre ++ [s], noMatch sn en x := by
      intro x hx
      rcases List.mem_append.mp hx with hx | hx
      · intro hname
        exact absurd hname (hpre x hx)
      · have : x = s := by simpa using hx
        subst this
        intro _
        exact hno
    have h2 := deployServers_skip T sn en (pre ++ [s]) post h1
    simp only [List.append_assoc, List.singleton_append] at h2
    simp [deploy, h2]
  have hfirst : ∀ pre2 s2 post2 epre e epost,
      post = pre2 ++ s2 :: post2 →
      (∀ x ∈ pre2, ¬ (x.Name = sn ∧ ∃ y ∈ x.Environments, y.Name = en)) →
      s2.Name = sn →
      s2.Environments = epre ++ e :: epost →
      (∀ y ∈ epre, y.Name ≠ en) →
      e.Name = en →
      deploy T { Servers := pre ++ s :: post } sn en = executeDeployment T e := by
    intro pre2 s2 post2 epre e epost hsplit hpre2 hs2 hesplit hepre he
    have hnm : ∀ x ∈ pre2, noMatch sn en x := by
      intro x hx hname y hy hyn
      exact hpre2 x hx ⟨hname, y, hy, hyn⟩
    rw [hskip, hsplit]
    exact deploy_first T sn en pre2 s2 post2 epre e epost hnm hs2 hesplit hepre he
  refine ⟨hskip, ?_, ?_, ?_⟩
  · intro hpost
    rw [hskip]
    exact deploy_none T { Servers := post } sn en hpost
  · intro pre2 s2 post2 epre e epost hsplit hpre2 hs2 hesplit hepre he
    have hd := hfirst pre2 s2 post2 epre e epost hsplit hpre2 hs2 hesplit hepre he
    refine ⟨hd, ?_⟩
    rw [hd]
    exact exec_dials T e
  · intro hex
    obtain ⟨pre2, s2, post2, hsplit, hpre2, hs2, hex2⟩ := servers_split_first sn en post hex
    obtain ⟨epre, e, epost, hesplit, hepre, he⟩ := envs_split_first en s2.Environments hex2
    have hpre3 : ∀ x ∈ pre2, ¬ (x.Name = sn ∧ ∃ y ∈ x.Environments, y.Name = en) := by
      rintro x hx ⟨hname, y, hy, hyn⟩
      exact hpre2 x hx hname y hy hyn
    exact ⟨pre2, s2, post2, epre, e, epost, hsplit, hpre3, hs2, hesplit, hepre, he,
      hfirst pre2 s2 post2 epre e epost hsplit hpre3 hs2 hesplit hepre he⟩

/-- C3 amended, on `stagedList`: behind a server of another name, the first
`testserver` holds `stage` only and is skipped; of the two later servers named
`testserver` that hold `prod`, the earlier one is deployed, with its first
environment named `prod`, and not the last one. -/
theorem deploy_skips_server_without_env_witness :
    stagedList.Servers =
      [{ Name := "db", Environments := [prodEnvB] }]
        ++ { Name := "testserver", Environments := [stageEnv] }
        :: [{ Name := "testserver", Environments := [stageEnv, prodEnv, prodEnvB] },
            { Name := "testserver", Environments := [prodEnvB] }] ∧
    (∀ x ∈ [({ Name := "db", Environments := [prodEnvB] } : ServerConfig)],
      x.Name ≠ "testserver") ∧
    (∀ e ∈ [stageEnv], e.Name ≠ "prod") ∧
    deploy okTransport stagedList "testserver" "prod"
      = deploy okTransport
          { Servers := [{ Name := "testserver", Environments := [stageEnv, prodEnv, prodEnvB] },
                        { Name := "testserver", Environments := [prodEnvB] }] }
          "testserver" "prod" ∧
    (deploy okTransport stagedList "testserver" "prod" = executeDeployment okTransport prodEnv ∧
      (deploy okTransport stagedList "testserver" "prod").trace.filter Effect.isDial
        = [Effect.dial "tcp" prodEnv.Server
            { User := prodEnv.User, Password := prodEnv.Pass }]) ∧
    deploy okTransport stagedList "testserver" "prod" ≠ executeDeployment okTransport prodEnvB :=
  have h := deploy_skips_server_without_env okTransport "testserver" "prod"
    [{ Name := "db", Environments := [prodEnvB] }]
    { Name := "testserver", Environments := [stageEnv] }
    [{ Name := "testserver", Environments := [stageEnv, prodEnv, prodEnvB] },
     { Name := "testserver", Environments := [prodEnvB] }]
    (by decide) rfl (by decide)
  ⟨rfl, by decide, by decide, h.1,
   h.2.2.1 [] { Name := "testserver", Environments := [stageEnv, prodEnv, prodEnvB] }
     [{ Name := "testserver", Environments := [prodEnvB] }] [stageEnv] prodEnv [prodEnvB]
     rfl (by simp) rfl rfl (by decide) rfl,
   by decide⟩

/-! ## The remote execution of `executeDeployment` -/

/-- The four shapes of a run of `executeDeployment`. -/
theorem exec_cases (T : Transport) (env : ServerEnvironment) :
    (∃ d, T.dial "tcp" env.Server { User := env.User, Password := env.Pass } = .error d ∧
      executeDeployment T env =
        { trace := [Effect.dial "tcp" env.Server { User := env.User, Password := env.Pass }],
          output := "", err := some d }) ∨
    (∃ c e, T.dial "tcp" env.Server { User := env.User, Password := env.Pass } = .ok c ∧
      T.newSession c = .error e ∧
      executeDeployment T env =
        { trace := [Effect.dial "tcp" env.Server { User := env.User, Password := env.Pass },
                    Effect.newSession c],
          output := "", err := some e }) ∨
    (∃ c s, T.dial "tcp" env.Server { User := env.User, Password := env.Pass } = .ok c ∧
      T.newSession c = .ok s ∧
      ∃ out err, executeDeployment T env =
        { trace := [Effect.dial "tcp" env.Server { User := env.User, Password := env.Pass },
                    Effect.newSession c,
                    Effect.run s ("cd " ++ env.Dir ++ " && " ++ env.Command),
                    Effect.sessionClose s],
          output := out, err := err }) := by
  cases hd : T.dial "tcp" env.Server { User := env.User, Password := env.Pass } with
  | error d => exact Or.inl ⟨d, rfl, exec_dial_error T env d hd⟩
  | ok c =>
    cases hs : T.newSession c with
    | error x => exact Or.inr (Or.inl ⟨c, x, rfl, hs, exec_session_error T env c x hd hs⟩)
    | ok s =>
      refine Or.inr (Or.inr ⟨c, s, rfl, hs, ?_⟩)
      cases hr : (T.run s ("cd " ++ env.Dir ++ " && " ++ env.Command)).err with
      | some r => exact ⟨_, _, exec_run_error T env c s r hd hs hr⟩
      | none => exact ⟨_, _, exec_run_ok T env c s hd hs hr⟩

/-- C4: whenever a run effect occurs in the trace of `executeDeployment`, its
command string is `cd `, the directory, ` && `, the command, both verbatim, and
it is the only run effect of the call; any environment with the same directory
and command yields the same string. -/
theorem executeDeployment_command (T : Transport) (env : ServerEnvironment)
    (s : Session) (cmd : String)
    (h : Effect.run s cmd ∈ (executeDeployment T env).trace) :
    cmd = "cd " ++ env.Dir ++ " && " ++ env.Command ∧
    (executeDeployment T env).trace.filter Effect.isRun = [Effect.run s cmd] ∧
    (∀ env2 : ServerEnvironment, env2.Dir = env.Dir → env2.Command = env.Command →
      remoteCommand env2 = cmd) := by
  rcases exec_cases T env with ⟨d, _, he⟩ | ⟨c, e, _, _, he⟩ | ⟨c, s2, _, _, out, err, he⟩
  · rw [he] at h
    simp at h
  · rw [he] at h
    simp at h
  · rw [he] at h ⊢
    simp at h
    obtain ⟨h1, h2⟩ := h
    subst h1 h2
    refine ⟨rfl, ?_, ?_⟩
    · simp [List.filter, Effect.isRun]
    · intro env2 hdir hcmd
      rw [remoteCommand_eq, hdir, hcmd]

/-- C4 on a directory and a command with blanks, quotes and shell operators:
they reach the session unescaped. -/
theorem executeDeployment_command_witness :
    Effect.run { id := 7 } "cd /srv/my app; ls && ./restart.sh 'now' | tee log "
      ∈ (executeDeployment okTransport
          { prodEnv with Dir := "/srv/my app; ls", Command := "./restart.sh 'now' | tee log " }).trace ∧
    ("cd /srv/my app; ls && ./restart.sh 'now' | tee log "
        = "cd " ++ "/srv/my app; ls" ++ " && " ++ "./restart.sh 'now' | tee log " ∧
      (executeDeployment okTransport
          { prodEnv with Dir := "/srv/my app; ls", Command := "./restart.sh 'now' | tee log " }
        ).trace.filter Effect.isRun
        = [Effect.run { id := 7 } "cd /srv/my app; ls && ./restart.sh 'now' | tee log "]) :=
  ⟨by decide,
   (executeDeployment_command okTransport
     { prodEnv with Dir := "/srv/my app; ls", Command := "./restart.sh 'now' | tee log " }
     { id := 7 } "cd /srv/my app; ls && ./restart.sh 'now' | tee log " (by decide)).1,
   (executeDeployment_command okTransport
     { prodEnv with Dir := "/srv/my app; ls", Command := "./restart.sh 'now' | tee log " }
     { id := 7 } "cd /srv/my app; ls && ./restart.sh 'now' | tee log " (by decide)).2.1⟩

/-- C5: when dial, session-open and run all succeed, `executeDeployment`
returns no error and exactly the bytes the command wrote to standard output,
whatever it wrote to standard error. -/
theorem executeDeployment_output (T : Transport) (env : ServerEnvironment)
    (c : Client) (s : Session)
    (hd : T.dial "tcp" env.Server { User := env.User, Password := env.Pass } = .ok c)
    (hs : T.newSession c = .ok s)
    (hr : (T.run s ("cd " ++ env.Dir ++ " && " ++ env.Command)).err = none) :
    (executeDeployment T env).err = none ∧
    (executeDeployment T env).output
      = (T.run s ("cd " ++ env.Dir ++ " && " ++ env.Command)).stdout := by
  rw [exec_run_ok T env c s hd hs hr]
  exact ⟨rfl, rfl⟩

/-- C5 on `echo hello` in `/tmp`: the output is `hello` with its newline, and
the notice written to standard error is not part of it. -/
theorem executeDeployment_output_witness :
    (echoTransport.run { id := 7 } ("cd " ++ echoEnv.Dir ++ " && " ++ echoEnv.Command)).stderr
      = "motd: welcome\n" ∧
    ((executeDeployment echoTransport echoEnv).err = none ∧
      (executeDeployment echoTransport echoEnv).output
        = (echoTransport.run { id := 7 }
            ("cd " ++ echoEnv.Dir ++ " && " ++ echoEnv.Command)).stdout) ∧
    (echoTransport.run { id := 7 } ("cd " ++ echoEnv.Dir ++ " && " ++ echoEnv.Command)).stdout
      = "hello\n" :=
  ⟨by decide,
   executeDeployment_output echoTransport echoEnv { id := 1 } { id := 7 } rfl rfl (by decide),
   by decide⟩

/-- C6: `executeDeployment` returns the error of the first failing step,
unchanged and with empty output, and performs nothing after it: a failed dial
is followed by no session-open and no run, a failed session-open by no run, and
a failed run discards the captured standard output. -/
theorem executeDeployment_first_error (T : Transport) (env : ServerEnvironment) :
    (∀ d, T.dial "tcp" env.Server { User := env.User, Password := env.Pass } = .error d →
      executeDeployment T env =
        { trace := [Effect.dial "tcp" env.Server { User := env.User, Password := env.Pass }],
          output := "", err := some d }) ∧
    (∀ c e, T.dial "tcp" env.Server { User := env.User, Password := env.Pass } = .ok c →
      T.newSession c = .error e →
      executeDeployment T env =
        { trace := [Effect.dial "tcp" env.Server { User := env.User, Password := env.Pass },
                    Effect.newSession c],
          output := "", err := some e }) ∧
    (∀ c s r, T.dial "tcp" env.Server { User := env.User, Password := env.Pass } = .ok c →
      T.newSession c = .ok s →
      (T.run s ("cd " ++ env.Dir ++ " && " ++ env.Command)).err = some r →
      executeDeployment T env =
        { trace := [Effect.dial "tcp" env.Server { User := env.User, Password := env.Pass },
                    Effect.newSession c,
                    Effect.run s ("cd " ++ env.Dir ++ " && " ++ env.Command),
                    Effect.sessionClose s],
          output := "", err := some r }) :=
  ⟨fun d hd => exec_dial_error T env d hd,
   fun c e hd hs => exec_session_error T env c e hd hs,
   fun c s r hd hs hr => exec_run_error T env c s r hd hs hr⟩

/-- C6 on a rejected password (the error is the dial's, not the session's nor the
not-found one), on a refused session, and on a command that writes output and
then exits with status 1. -/
theorem executeDeployment_first_error_witness :
    (executeDeployment badPasswordTransport prodEnv =
        { trace := [Effect.dial "tcp" prodEnv.Server
                      { User := prodEnv.User, Password := prodEnv.Pass }],
          output := "",
          err := some (.library "ssh: handshake failed: ssh: unable to authenticate") } ∧
      (executeDeployment badPasswordTransport prodEnv).err
        ≠ some (.library "ssh: rejected: administratively prohibited") ∧
      (executeDeployment badPasswordTransport prodEnv).err
        ≠ some (notFoundError "testserver" "prod")) ∧
    executeDeployment noSessionTransport prodEnv =
        { trace := [Effect.dial "tcp" prodEnv.Server
                      { User := prodEnv.User, Password := prodEnv.Pass },
                    Effect.newSession { id := 1 }],
          output := "",
          err := some (.library "ssh: rejected: administratively prohibited") } ∧
    ((failingRunTransport.run { id := 7 }
        ("cd " ++ prodEnv.Dir ++ " && " ++ prodEnv.Command)).stdout = "stopping app\n" ∧
      executeDeployment failingRunTransport prodEnv =
        { trace := [Effect.dial "tcp" prodEnv.Server
                      { User := prodEnv.User, Password := prodEnv.Pass },
                    Effect.newSession { id := 1 },
                    Effect.run { id := 7 } ("cd " ++ prodEnv.Dir ++ " && " ++ prodEnv.Command),
                    Effect.sessionClose { id := 7 }],
          output := "",
          err := some (.library "Process exited with: 1. Reason was:  ()") }) :=
  ⟨⟨(executeDeployment_first_error badPasswordTransport prodEnv).1 _ rfl, by decide, by decide⟩,
   (executeDeployment_first_error noSessionTransport prodEnv).2.1 _ _ rfl rfl,
   by decide,
   (executeDeployment_first_error failingRunTransport prodEnv).2.2 _ _ _ rfl rfl (by decide)⟩

/-- C7: a call of `executeDeployment` dials at most once, opens at most one
session and runs at most one command; when the session was opened it is closed
exactly once, as the last effect of the call and right after the run step,
whether the run fails or not; when the dial or the session-open fails, no
session is closed. -/
theorem executeDeployment_session_closed (T : Transport) (env : ServerEnvironment) :
    (executeDeployment T env).trace.countP Effect.isDial ≤ 1 ∧
    (executeDeployment T env).trace.countP Effect.isNewSession ≤ 1 ∧
    (executeDeployment T env).trace.countP Effect.isRun ≤ 1 ∧
    (∀ c s, T.dial "tcp" env.Server { User := env.User, Password := env.Pass } = .ok c →
      T.newSession c = .ok s →
      (executeDeployment T env).trace.countP Effect.isSessionClose = 1 ∧
      (executeDeployment T env).trace.getLast? = some (Effect.sessionClose s) ∧
      ∃ before cmd, (executeDeployment T env).trace
          = before ++ [Effect.run s cmd, Effect.sessionClose s] ∧
        before.countP Effect.isRun = 0 ∧ before.countP Effect.isSessionClose = 0) ∧
    (∀ d, T.dial "tcp" env.Server { User := env.User, Password := env.Pass } = .error d →
      (executeDeployment T env).trace.countP Effect.isSessionClose = 0) ∧
    (∀ c e, T.dial "tcp" env.Server { User := env.User, Password := env.Pass } = .ok c →
      T.newSession c = .error e →
      (executeDeployment T env).trace.countP Effect.isSessionClose = 0) := by
  rcases exec_cases T env with ⟨d, hd, he⟩ | ⟨c, e, hd, hs, he⟩ | ⟨c, s, hd, hs, out, err, he⟩
  · rw [he]
    refine ⟨by simp [Effect.isDial], by simp [Effect.isNewSession], by simp [Effect.isRun],
      ?_, ?_, ?_⟩
    · intro c s hc
      rw [hd] at hc
      cases hc
    · intro _ _
      rfl
    · intro _ _ _ _
      rfl
  · rw [he]
    refine ⟨by simp [Effect.isDial], by simp [Effect.isNewSession], by simp [Effect.isRun],
      ?_, ?_, ?_⟩
    · intro c2 s2 hc hs2
      rw [hd] at hc
      cases hc
      rw [hs] at hs2
      cases hs2
    · intro _ _
      rfl
    · intro _ _ _ _
      rfl
  · rw [he]
    refine ⟨by simp [Effect.isDial], by simp [Effect.isNewSession], by simp [Effect.isRun],
      ?_, ?_, ?_⟩
    · intro c2 s2 hc hs2
      rw [hd] at hc
      cases hc
      rw [hs] at hs2
      cases hs2
      refine ⟨rfl, rfl, [Effect.dial "tcp" env.Server { User := env.User, Password := env.Pass },
        Effect.newSession c], "cd " ++ env.Dir ++ " && " ++ env.Command, rfl, rfl, rfl⟩
    · intro d2 hc
      rw [hd] at hc
      cases hc
    · intro c2 e2 hc hs2
      rw [hd] at hc
      cases hc
      rw [hs] at hs2
      cases hs2

/-- C7 on a run that succeeds, a run that fails, and a refused session. -/
theorem executeDeployment_session_closed_witness :
    ((executeDeployment okTransport prodEnv).trace.countP Effect.isSessionClose = 1 ∧
      (executeDeployment okTransport prodEnv).trace.getLast?
        = some (Effect.sessionClose { id := 7 }) ∧
      ∃ before cmd, (executeDeployment okTransport prodEnv).trace
          = before ++ [Effect.run { id := 7 } cmd, Effect.sessionClose { id := 7 }] ∧
        before.countP Effect.isRun = 0 ∧ before.countP Effect.isSessionClose = 0) ∧
    (executeDeployment failingRunTransport prodEnv).trace.countP Effect.isSessionClose = 1 ∧
    (executeDeployment noSessionTransport prodEnv).trace.countP Effect.isSessionClose = 0 ∧
    (executeDeployment badPasswordTransport prodEnv).trace.countP Effect.isSessionClose = 0 :=
  ⟨(executeDeployment_session_closed okTransport prodEnv).2.2.2.1 { id := 1 } { id := 7 } rfl rfl,
   ((executeDeployment_session_closed failingRunTransport prodEnv).2.2.2.1
      { id := 1 } { id := 7 } rfl rfl).1,
   (executeDeployment_session_closed noSessionTransport prodEnv).2.2.2.2.2 _ _ rfl rfl,
   (executeDeployment_session_closed badPasswordTransport prodEnv).2.2.2.2.1 _ rfl⟩

/-- C10: no trace of `executeDeployment` holds a close of the client
connection; when the dial succeeds and the session-open fails the trace is the
dial and the failed session-open, with no cleanup effect; when the session was
opened the only cleanup effect is the close of that session. -/
theorem executeDeployment_client_never_closed (T : Transport) (env : ServerEnvironment) :
    (∀ x ∈ (executeDeployment T env).trace, x.isClientClose = false) ∧
    (∀ c, Effect.clientClose c ∉ (executeDeployment T env).trace) ∧
    (∀ c e, T.dial "tcp" env.Server { User := env.User, Password := env.Pass } = .ok c →
      T.newSession c = .error e →
      (executeDeployment T env).trace
        = [Effect.dial "tcp" env.Server { User := env.User, Password := env.Pass },
           Effect.newSession c] ∧
      (executeDeployment T env).trace.filter Effect.isCleanup = []) ∧
    (∀ c s, T.dial "tcp" env.Server { User := env.User, Password := env.Pass } = .ok c →
      T.newSession c = .ok s →
      (executeDeployment T env).trace.filter Effect.isCleanup = [Effect.sessionClose s]) := by
  rcases exec_cases T env with ⟨d, hd, he⟩ | ⟨c, e, hd, hs, he⟩ | ⟨c, s, hd, hs, out, err, he⟩
  · rw [he]
    refine ⟨by simp [Effect.isClientClose], by simp, ?_, ?_⟩
    · intro c e hc
      rw [hd] at hc
      cases hc
    · intro c s hc
      rw [hd] at hc
      cases hc
  · rw [he]
    refine ⟨by simp [Effect.isClientClose], by simp, ?_, ?_⟩
    · intro c2 e2 hc hs2
      rw [hd] at hc
      cases hc
      exact ⟨rfl, rfl⟩
    · intro c2 s2 hc hs2
      rw [hd] at hc
      cases hc
      rw [hs] at hs2
      cases hs2
  · rw [he]
    refine ⟨by simp [Effect.isClientClose], by simp, ?_, ?_⟩
    · intro c2 e2 hc hs2
      rw [hd] at hc
      cases hc
      rw [hs] at hs2
      cases hs2
    · intro c2 s2 hc hs2
      rw [hd] at hc
      cases hc
      rw [hs] at hs2
      cases hs2
      rfl

/-- C10 on a refused session and on a completed run. -/
theorem executeDeployment_client_never_closed_witness :
    ((executeDeployment noSessionTransport prodEnv).trace
        = [Effect.dial "tcp" prodEnv.Server { User := prodEnv.User, Password := prodEnv.Pass },
           Effect.newSession { id := 1 }] ∧
      (executeDeployment noSessionTransport prodEnv).trace.filter Effect.isCleanup = []) ∧
    (executeDeployment okTransport prodEnv).trace.filter Effect.isCleanup
      = [Effect.sessionClose { id := 7 }] :=
  ⟨(executeDeployment_client_never_closed noSessionTransport prodEnv).2.2.1 _ _ rfl rfl,
   (executeDeployment_client_never_closed okTransport prodEnv).2.2.2 _ _ rfl rfl⟩

/-! ## The process -/

theorem flagParseLoop_exit_code (n : Nat) :
    ∀ (args : List String), args.length ≤ n → ∀ (fl : FlagValues) (code : Nat),
      flagParseLoop fl args = .exited code → code = 0 ∨ code = 2 := by
  induction n using Nat.strong_induction_on with
  | _ n ih =>
    intro args hlen fl code h
    cases args with
    | nil => simp [flagParseLoop] at h
    | cons s rest =>
      unfold flagParseLoop at h
      split at h
      · cases h
      · cases h
      · cases h
        exact Or.inr rfl
      · split at h
        · split at h
          · cases h
            exact Or.inl rfl
          · cases h
            exact Or.inr rfl
        · split at h
          · have hl : rest.length < n := by
              simp only [List.length_cons] at hlen
              omega
            exact ih rest.length hl rest (le_refl _) _ code h
          · split at h
            · cases h
              exact Or.inr rfl
            · rename_i v rest2
              have hl : rest2.length < n := by
                simp only [List.length_cons] at hlen
                omega
              exact ih rest2.length hl rest2 (le_refl _) _ code h

theorem flagParse_exit_code (args : List String) (code : Nat)
    (h : flagParse args = .exited code) : code = 0 ∨ code = 2 :=
  flagParseLoop_exit_code args.length args (le_refl _) _ code h

theorem main_parse_exit_eq (args : List String) (W : World) (code : Nat)
    (hp : flagParse args = .exited code) :
    main args W = { stdout := ["Deploy v0.0.1\n"], trace := [], exit := code } := by
  unfold main
  simp [hp, Println]

theorem main_flags_missing_eq (args : List String) (sn en : String) (W : World)
    (hp : flagParse args = .parsed sn en)
    (h : sn = "" ∨ en = "") :
    main args W =
      { stdout := ["Deploy v0.0.1\n", "Usage: deploy --server=serverName --env=envName\n",
                   "Example: deploy --server=testserver --env=prod\n"],
        trace := [], exit := 1 } := by
  unfold main
  simp only [hp, h, if_true]
  rfl

theorem main_unreadable_eq (args : List String) (sn en : String) (W : World) (e : GoError)
    (hp : flagParse args = .parsed sn en)
    (h1 : sn ≠ "") (h2 : en ≠ "")
    (hf : W.readFile (configFile W) = .error e) :
    main args W =
      { stdout := ["Deploy v0.0.1\n",
                   "Could not open servers.json: " ++ e.Error ++ " (tried with path "
                     ++ configFile W ++ ")\n"],
        trace := [Effect.readFile (configFile W)], exit := 1 } := by
  unfold main
  simp [hp, h1, h2, hf, sprintf_couldNotOpen, Println]

theorem main_failed_eq (args : List String) (sn en : String) (W : World) (file : String)
    (e : GoError)
    (hp : flagParse args = .parsed sn en)
    (h1 : sn ≠ "") (h2 : en ≠ "")
    (hf : W.readFile (configFile W) = .ok file)
    (hd : (deploy W.transport (W.unmarshal file) sn en).err = some e) :
    main args W =
      { stdout := ["Deploy v0.0.1\n",
                   "Initiating deployment of " ++ sn ++ ":" ++ en ++ "\n",
                   "Error while deploying: " ++ e.Error ++ "\n"],
        trace := Effect.readFile (configFile W)
          :: (deploy W.transport (W.unmarshal file) sn en).trace,
        exit := 1 } := by
  unfold main
  simp [hp, h1, h2, hf, hd, sprintf_initiating, sprintf_errorLine, Println]

theorem main_succeeded_eq (args : List String) (sn en : String) (W : World) (file : String)
    (hp : flagParse args = .parsed sn en)
    (h1 : sn ≠ "") (h2 : en ≠ "")
    (hf : W.readFile (configFile W) = .ok file)
    (hd : (deploy W.transport (W.unmarshal file) sn en).err = none) :
    main args W =
      { stdout := ["Deploy v0.0.1\n",
                   "Initiating deployment of " ++ sn ++ ":" ++ en ++ "\n",
                   "Deployment succeeded!\n",
                   "Output:\n" ++ (deploy W.transport (W.unmarshal file) sn en).output ++ "\n"],
        trace := Effect.readFile (configFile W)
          :: (deploy W.transport (W.unmarshal file) sn en).trace,
        exit := 0 } := by
  unfold main
  simp [hp, h1, h2, hf, hd, sprintf_initiating, sprintf_output, Println]

/-- C9, refuted as stated: on `deploy --server` (the flag without a value),
on `deploy --bogus` and on `deploy -h` the value of `--server` or of `--env` is
absent, and the process ends inside `flag.Parse`: the banner is the only print,
the usage lines of lines 110-111 are not printed, and the exit code is 2, 2
and 0 instead of 1. -/
theorem main_usage_counterexample :
    main ["--server"] (testWorld okTransport)
      = { stdout := ["Deploy v0.0.1\n"], trace := [], exit := 2 } ∧
    main ["--env=prod", "--bogus"] (testWorld okTransport)
      = { stdout := ["Deploy v0.0.1\n"], trace := [], exit := 2 } ∧
    main ["-h"] (testWorld okTransport)
      = { stdout := ["Deploy v0.0.1\n"], trace := [], exit := 0 } ∧
    "Usage: deploy --server=serverName --env=envName\n"
      ∉ (main ["--server"] (testWorld okTransport)).stdout ∧
    (main ["--server"] (testWorld okTransport)).exit ≠ 1 := by
  decide

/-- C9, amended: when `flag.Parse` accepts the command line and the value of
`--server` or of `--env` is absent or empty, `main` prints the banner and the
two usage lines and exits with code 1 without any effect: no file read, no
call of `deploy`, no connection.  When `flag.Parse` ends the process (a help
request, an undeclared flag, a flag without value, bad syntax), the banner is
the only print, the exit code is the flag package's (0 or 2) and there is no
effect either.  Hence every connection dialled through `main` is the one of an
environment whose name and whose server's name are the two flag values, both
non-empty. -/
theorem main_usage (args : List String) (W : World) :
    (∀ sn en, flagParse args = .parsed sn en → (sn = "" ∨ en = "") →
      main args W =
        { stdout := ["Deploy v0.0.1\n", "Usage: deploy --server=serverName --env=envName\n",
                     "Example: deploy --server=testserver --env=prod\n"],
          trace := [], exit := 1 }) ∧
    (∀ code, flagParse args = .exited code →
      main args W = { stdout := ["Deploy v0.0.1\n"], trace := [], exit := code } ∧
      (code = 0 ∨ code = 2)) ∧
    (∀ x ∈ (main args W).trace, x.isDial = true →
      ∃ file s e, W.readFile (configFile W) = .ok file ∧
        s ∈ (W.unmarshal file).Servers ∧ e ∈ s.Environments ∧
        flagParse args = .parsed s.Name e.Name ∧ s.Name ≠ "" ∧ e.Name ≠ "" ∧
        x = Effect.dial "tcp" e.Server { User := e.User, Password := e.Pass }) := by
  refine ⟨?_, ?_, ?_⟩
  · intro sn en hp h
    exact main_flags_missing_eq args sn en W hp h
  · intro code hp
    exact ⟨main_parse_exit_eq args W code hp, flagParse_exit_code args code hp⟩
  · intro x hx hdial
    cases hp : flagParse args with
    | exited code =>
      rw [main_parse_exit_eq args W code hp] at hx
      simp at hx
    | parsed sn en =>
      by_cases hflags : sn = "" ∨ en = ""
      · rw [main_flags_missing_eq args sn en W hp hflags] at hx
        simp at hx
      · have h1 : sn ≠ "" := fun h => hflags (Or.inl h)
        have h2 : en ≠ "" := fun h => hflags (Or.inr h)
        cases hf : W.readFile (configFile W) with
        | error e =>
          rw [main_unreadable_eq args sn en W e hp h1 h2 hf] at hx
          simp at hx
          subst hx
          simp [Effect.isDial] at hdial
        | ok file =>
          have htrace : (main args W).trace = Effect.readFile (configFile W)
              :: (deploy W.transport (W.unmarshal file) sn en).trace := by
            cases hd : (deploy W.transport (W.unmarshal file) sn en).err with
            | some e => rw [main_failed_eq args sn en W file e hp h1 h2 hf hd]
            | none => rw [main_succeeded_eq args sn en W file hp h1 h2 hf hd]
          rw [htrace] at hx
          rcases List.mem_cons.mp hx with hx | hx
          · subst hx
            simp [Effect.isDial] at hdial
          · rcases deploy_cases W.transport (W.unmarshal file) sn en
              with hnf | ⟨s, hs, e, he, hsn, hen, hd⟩
            · rw [hnf] at hx
              simp [notFoundOutcome] at hx
            · rw [hd] at hx
              have hxf : x ∈ (executeDeployment W.transport e).trace.filter Effect.isDial :=
                List.mem_filter.mpr ⟨hx, hdial⟩
              rw [exec_dials] at hxf
              refine ⟨file, s, e, rfl, hs, he, ?_, ?_, ?_, ?_⟩
              · rw [hsn, hen]
              · rw [hsn]; exact h1
              · rw [hen]; exact h2
              · simpa using hxf

/-- C9 amended, on an absent `--env`, on no argument at all, on empty values in
a world whose only server and environment have empty names, and on a flag
without value. -/
theorem main_usage_witness :
    flagParse ["--server=testserver"] = .parsed "testserver" "" ∧
    main ["--server=testserver"] (testWorld okTransport) =
      { stdout := ["Deploy v0.0.1\n", "Usage: deploy --server=serverName --env=envName\n",
                   "Example: deploy --server=testserver --env=prod\n"],
        trace := [], exit := 1 } ∧
    main [] (testWorld okTransport) =
      { stdout := ["Deploy v0.0.1\n", "Usage: deploy --server=serverName --env=envName\n",
                   "Example: deploy --server=testserver --env=prod\n"],
        trace := [], exit := 1 } ∧
    main ["--server=", "--env="] emptyNamesWorld =
      { stdout := ["Deploy v0.0.1\n", "Usage: deploy --server=serverName --env=envName\n",
                   "Example: deploy --server=testserver --env=prod\n"],
        trace := [], exit := 1 } ∧
    (main ["--env"] (testWorld okTransport)
        = { stdout := ["Deploy v0.0.1\n"], trace := [], exit := 2 } ∧
      (2 = 0 ∨ 2 = 2)) :=
  ⟨by decide,
   (main_usage ["--server=testserver"] (testWorld okTransport)).1 "testserver" ""
     (by decide) (Or.inr rfl),
   (main_usage [] (testWorld okTransport)).1 "" "" (by decide) (Or.inl rfl),
   (main_usage ["--server=", "--env="] emptyNamesWorld).1 "" "" (by decide) (Or.inl rfl),
   (main_usage ["--env"] (testWorld okTransport)).2.1 2 (by decide)⟩

end Deploy
